import Mathlib

/-!
Shallow embedding of the `python-ssllabs` client (file `ssllabs/__init__.py`,
the canonical, most recent version of the code) and proofs about the claims
of its specification.

The HTTP transport is modelled by scripted outcomes: each network-touching
helper of the class `SSLLabsAssessment` consumes the next scripted outcome in
order.  Python values that matter to control flow are modelled explicitly:
`None` becomes `Option.none`, a missing instance attribute is `none` as well,
`return` with no value is a distinguished result, and exceptions that escape a
function are distinguished results of the embedding.
-/

namespace SSLLabs

/-- One entry of the `errors` array in the JSON body of a non-200 API
response, as read by `_handle_api_error` (src 108-111): `error.get('field')`
and `error.get('message')`, each possibly absent (`None`). -/
structure ErrEntry where
  field : Option String
  message : Option String
  deriving DecidableEq

/-- An HTTP response as seen by `_handle_api_error`.  `json_errors` models the
expression `response.json().get('errors') or ()` together with the parse:
`some errs` means the body parsed as a JSON object and `errs` is its `errors`
array (a missing or null `errors` key yields `[]` through `or ()`); `none`
means `response.json()` raises (body not parseable as a JSON object), an
exception `_handle_api_error` does not catch. -/
structure HttpResponse where
  status_code : Nat
  json_errors : Option (List ErrEntry)
  text : String
  deriving DecidableEq

/-- Result of `_handle_api_error` (src 104-125): the response passed through
unchanged, an `AccessProblem` raised by `_die_on_error` with the given
message, or a JSON parse error escaping from `response.json()`. -/
inductive ApiCallResult where
  | ok (r : HttpResponse)
  | accessProblem (msg : String)
  | jsonError
  deriving DecidableEq

/-- Rendering of one error entry inside the generator expression of src
108-110: `'{}{}{}'.format(error.get('field') or '', ': ' if error.get('field')
else '', error.get('message') or 'Unknown error')`.  Python truthiness makes
an empty-string field behave like a missing one. -/
def render_error (e : ErrEntry) : String :=
  (match e.field with
   | some f => if f = "" then "" else f
   | none => "") ++
  (match e.field with
   | some f => if f = "" then "" else ": "
   | none => "") ++
  (match e.message with
   | some m => if m = "" then "Unknown error" else m
   | none => "Unknown error")

/-- Embedding of Python `'; '.join(l)`. -/
def join_sep : List String → String
  | [] => ""
  | [x] => x
  | x :: y :: rest => x ++ "; " ++ join_sep (y :: rest)

/-- The `error_message` expression of src 108-112: the joined rendered
entries, falling back to `response.text` when the join is empty (Python `or`).
Only meaningful when the body parsed, i.e. for `json_errors = some errs`. -/
def api_error_text (errs : List ErrEntry) (text : String) : String :=
  let joined := join_sep (errs.map render_error)
  if joined = "" then text else joined

/-- Embedding of `_handle_api_error` (src 104-125).  The 200 check comes
first; for every other status code the error message is computed (which
requires the body to parse as JSON) and then the status code is dispatched,
each branch raising `AccessProblem` via `_die_on_error`. -/
def handle_api_error (r : HttpResponse) : ApiCallResult :=
  if r.status_code = 200 then .ok r
  else
    match r.json_errors with
    | none => .jsonError
    | some errs =>
      let error_message := api_error_text errs r.text
      if r.status_code = 400 then
        .accessProblem ("[API] invocation error: " ++ error_message)
      else if r.status_code = 429 then
        .accessProblem ("[API] client request rate too high or too many new" ++
          "assessments too fast: " ++ error_message)
      else if r.status_code = 500 then
        .accessProblem ("[API] internal error: " ++ error_message)
      else if r.status_code = 503 then
        .accessProblem ("[API] the service is not available: " ++ error_message)
      else if r.status_code = 529 then
        .accessProblem ("[API] the service is overloaded: " ++ error_message)
      else
        .accessProblem ("[API] unknown status code: " ++ toString r.status_code ++
          ", " ++ error_message)

/-- True exactly on the `accessProblem` results of the classifier. -/
def isAccessProblem : ApiCallResult → Bool
  | .accessProblem _ => true
  | _ => false

/-- The JSON body of a 200 response to `GET {base}/info`, as read by
`_check_api_info` (src 146-157) with `response.get(...)`: every field may be
absent (`None`). -/
structure InfoDoc where
  maxAssessments : Option Int
  clientMaxAssessments : Option Int
  currentAssessments : Option Int
  engineVersion : Option String
  criteriaVersion : Option String
  messages : Option (List String)
  deriving DecidableEq

/-- Scripted outcome of one `requests.get('{url}info')` call inside
`_check_api_info`: a parsed body, a `requests.ConnectionError`, an
`AccessProblem` raised by the classifier, or any other exception (for
instance a JSON parse failure of the 200 body). -/
inductive InfoOutcome where
  | doc (d : InfoDoc)
  | connError
  | fatal (msg : String)
  | parseFailure
  deriving DecidableEq

/-- Result of `_check_api_info`: `ret b` models `return b`, `raise msg`
models an `AccessProblem` propagating to the caller. -/
inductive GateResult where
  | ret (b : Bool)
  | raise (msg : String)
  deriving DecidableEq

/-- Intermediate result of the URL-probing phase of `_check_api_info`. -/
inductive ProbeResult where
  | gotDoc (d : InfoDoc)
  | noUrl
  | raised (msg : String)
  | exc
  deriving DecidableEq

/-- The `for url in self.API_URLS` loop of src 130-136: only
`requests.ConnectionError` makes the loop try the next candidate URL;
a parsed body binds `self.API_URL` and breaks; an `AccessProblem` propagates;
any other exception is caught by the enclosing generic handler (src 161-163).
`outs` lists one scripted outcome per candidate URL, in order; the loop
exhausting all candidates leaves `self.API_URL` unset. -/
def probe_urls : List InfoOutcome → ProbeResult
  | [] => .noUrl
  | .doc d :: _ => .gotDoc d
  | .connError :: rest => probe_urls rest
  | .fatal m :: _ => .raised m
  | .parseFailure :: _ => .exc

/-- The explicitly-configured-URL branch of src 137-141: a single request; a
`ConnectionError` there is turned into an `AccessProblem` by `_die_on_error`
(no fallback).  An empty script is modelled as a generic exception. -/
def probe_configured : List InfoOutcome → ProbeResult
  | .doc d :: _ => .gotDoc d
  | .connError :: _ => .raised "[ERROR] Provided API URL is unavailable."
  | .fatal m :: _ => .raised m
  | .parseFailure :: _ => .exc
  | [] => .exc

/-- Number of `GET info` requests `_check_api_info` issues: one when an API
URL is configured, otherwise one per probed candidate. -/
def gate_info_requests (apiUrlConfigured : Bool) (outs : List InfoOutcome) : Nat :=
  if apiUrlConfigured then 1 else probe_count outs
where
  probe_count : List InfoOutcome → Nat
    | [] => 0
    | .connError :: rest => 1 + probe_count rest
    | _ :: _ => 1

/-- Embedding of `_check_api_info` (src 127-163).  After the probing phase:
an unset API URL raises via `_die_on_error` (src 143-144); then the three
capacity counters are read and `maxAssessments <= 0` returns `False`
("Rate limit reached", src 149-151) — comparing `None` with `0` raises a
`TypeError` that the generic handler turns into `return False`; finally the
notice logging of src 156-157 subscripts `response.get('messages')[0]`, so a
missing or empty `messages` list also ends in the generic handler's
`return False`. -/
def check_api_info (apiUrlConfigured : Bool) (outs : List InfoOutcome) : GateResult :=
  match (if apiUrlConfigured then probe_configured outs else probe_urls outs) with
  | .raised m => .raise m
  | .exc => .ret false
  | .noUrl => .raise "[ERROR] SSL Labs APIs are down. Please try again later."
  | .gotDoc d =>
    match d.maxAssessments with
    | none => .ret false
    | some m =>
      if m ≤ 0 then .ret false
      else
        match d.messages with
        | none => .ret false
        | some [] => .ret false
        | some (_ :: _) => .ret true

/-- One element of the `endpoints` array of an assessment status document. -/
structure EndpointSummary where
  ipAddress : Option String
  progress : Option Int
  statusDetailsMessage : Option String
  deriving DecidableEq

/-- An assessment status document as read by `analyze` with `.get`:
`status`, `statusMessage` and `endpoints` may each be absent. -/
structure StatusDoc where
  status : Option String
  statusMessage : Option String
  endpoints : Option (List EndpointSummary)
  deriving DecidableEq

/-- Scripted outcome of one `_poll_api` or `_get_all_results` call
(src 188-229): a parsed (non-empty, hence truthy) JSON object, `False`
after a caught non-`AccessProblem` exception, or a propagating
`AccessProblem`. -/
inductive JsonCallOutcome where
  | doc (d : StatusDoc)
  | failed
  | fatal (msg : String)
  deriving DecidableEq

/-- Scripted outcome of one `_trigger_new_assessment` call (src 165-186).
Since src 181 returns `self._handle_api_error(requests.get(_url))` without
`.json()`, a successful call yields the raw `requests.Response` object; its
body (never parsed by the code) is recorded for reference. -/
inductive TriggerOutcome where
  | response (body : StatusDoc)
  | failed
  | fatal (msg : String)
  deriving DecidableEq

/-- A request issued by the driver, in the order recorded by the trace. -/
inductive ApiRequest where
  | info
  | trigger
  | poll
  | fetchAll
  deriving DecidableEq

/-- How a call of `analyze` ends: a returned status document, a bare
`return` (Python `None`), `return False`, an uncaught `AttributeError` or
`TypeError` escaping `analyze`, an `AccessProblem` propagating to the
caller, or the scripted outcomes running out while the code would continue
polling. -/
inductive AnalyzeResult where
  | value (d : StatusDoc)
  | retNone
  | retFalse
  | attrError
  | typeError
  | raised (msg : String)
  | scriptEnded
  deriving DecidableEq

/-- Directive produced by one iteration of the first `while True` loop of
`analyze` (src 304-324). -/
inductive InitialStep where
  | breakFailed
  | breakInProgress (d : StatusDoc)
  | retNone
  | retDoc (d : StatusDoc)
  | fetchAllAndReturn
  | raised (msg : String)
  | continueLoop
  deriving DecidableEq

/-- One iteration of the body of the first `while True` loop of `analyze`
(src 304-324), given the outcome of its `_poll_api` call.  A `False` poll
logs and breaks (src 306-308); `IN_PROGRESS` breaks unconditionally, logging
first when resuming (src 309-312); `READY` while resuming returns `None`
(src 314-317), otherwise `return _status if self.return_all in ('on',
'done') else self._get_all_results()` (src 319); `ERROR` logs and returns
`None` (src 320-322); anything else continues the loop (src 323-324). -/
def initial_poll_step (resume : Bool) (return_all : String)
    (p : JsonCallOutcome) : InitialStep :=
  match p with
  | .failed => .breakFailed
  | .fatal m => .raised m
  | .doc d =>
    if d.status = some "IN_PROGRESS" then .breakInProgress d
    else if d.status = some "READY" then
      if resume then .retNone
      else if return_all = "on" ∨ return_all = "done" then .retDoc d
      else .fetchAllAndReturn
    else if d.status = some "ERROR" then .retNone
    else .continueLoop

/-- Directive produced by one iteration of the second `while True` loop of
`analyze` (src 337-356). -/
inductive MainStep where
  | breakLoop
  | sleepPoll (secs : Nat)
  | retDoc (d : StatusDoc)
  | fetchAllAndReturn
  | retNone
  | raised (msg : String)
  | unknownContinue
  deriving DecidableEq

/-- One iteration of the body of the second `while True` loop of `analyze`
(src 337-356), given the outcome of its `_poll_api` call.  A `False` poll
breaks out of the loop (src 339-340), which ends the surrounding `try` and
makes `analyze` fall off its end (Python `None`); `IN_PROGRESS` prints a
progress dot and sleeps 10s (src 342-346); `READY` is the same dispatch on
`return_all` as in the first loop (src 347-348); `ERROR` logs and returns
`None` (src 349-351); `DNS` sleeps 4s (src 352-354); an unknown status is
logged and the loop continues without sleeping (src 355-356). -/
def main_poll_step (return_all : String) (p : JsonCallOutcome) : MainStep :=
  match p with
  | .failed => .breakLoop
  | .fatal m => .raised m
  | .doc d =>
    if d.status = some "IN_PROGRESS" then .sleepPoll 10
    else if d.status = some "READY" then
      if return_all = "on" ∨ return_all = "done" then .retDoc d
      else .fetchAllAndReturn
    else if d.status = some "ERROR" then .retNone
    else if d.status = some "DNS" then .sleepPoll 4
    else .unknownContinue

/-- `_get_all_results` as observed by the `return` sites of `analyze`: its
parsed body is returned; its `False` (after a caught exception) becomes
`analyze`'s own return value; an `AccessProblem` propagates. -/
def resolve_fetch : JsonCallOutcome → AnalyzeResult
  | .doc d => .value d
  | .failed => .retFalse
  | .fatal m => .raised m

/-- How the first `while True` loop of `analyze` ends: `toMain last` is a
`break` falling through to src 326 with `_status = last` (`none` standing
for the Python value `False`), `done r` is a `return` (or a propagating
exception) ending `analyze` itself. -/
inductive LoopExit where
  | toMain (last : Option StatusDoc)
  | done (r : AnalyzeResult)
  deriving DecidableEq

/-- The first `while True` loop of `analyze` (src 304-324) over the scripted
poll outcomes.  Returns how the loop ended, the requests it issued, and the
scripted outcomes left for the second loop. -/
def initial_loop (resume : Bool) (return_all : String) (fetch : JsonCallOutcome) :
    List JsonCallOutcome → LoopExit × List ApiRequest × List JsonCallOutcome
  | [] => (.done .scriptEnded, [], [])
  | p :: rest =>
    match initial_poll_step resume return_all p with
    | .breakFailed => (.toMain none, [.poll], rest)
    | .breakInProgress d => (.toMain (some d), [.poll], rest)
    | .retNone => (.done .retNone, [.poll], rest)
    | .retDoc d => (.done (.value d), [.poll], rest)
    | .fetchAllAndReturn => (.done (resolve_fetch fetch), [.poll, .fetchAll], rest)
    | .raised m => (.done (.raised m), [.poll], rest)
    | .continueLoop =>
      let r := initial_loop resume return_all fetch rest
      (r.1, .poll :: r.2.1, r.2.2)

/-- The second `while True` loop of `analyze` (src 337-356) over the
remaining scripted poll outcomes, together with the surrounding `try`:
a `break` ends the `try` block and `analyze` returns `None`. -/
def main_loop (return_all : String) (fetch : JsonCallOutcome) :
    List JsonCallOutcome → AnalyzeResult × List ApiRequest
  | [] => (.scriptEnded, [])
  | p :: rest =>
    match main_poll_step return_all p with
    | .breakLoop => (.retNone, [.poll])
    | .sleepPoll _ =>
      let r := main_loop return_all fetch rest
      (r.1, .poll :: r.2)
    | .unknownContinue =>
      let r := main_loop return_all fetch rest
      (r.1, .poll :: r.2)
    | .retDoc d => (.value d, [.poll])
    | .fetchAllAndReturn => (resolve_fetch fetch, [.poll, .fetchAll])
    | .retNone => (.retNone, [.poll])
    | .raised m => (.raised m, [.poll])

/-- The bridge from the first loop's `break` to the second loop: src 326
evaluates `len(_status.get('endpoints'))` outside any `try`.  When the first
loop broke with `_status = False` (a failed poll), `False.get` raises an
uncaught `AttributeError`; when `_status` is a document without an
`endpoints` array, `len(None)` raises an uncaught `TypeError`.  Otherwise
control enters the `try` block and the second loop.  (The optional
endpoint-detail fan-out, src 328-336, only emits advisory progress output
and joins its workers; it does not alter the driver's result and is modelled
separately by `detail_loop`.) -/
def after_initial (return_all : String) (fetch : JsonCallOutcome)
    (last : Option StatusDoc) (rest : List JsonCallOutcome) :
    AnalyzeResult × List ApiRequest :=
  match last with
  | none => (.attrError, [])
  | some d =>
    match d.endpoints with
    | none => (.typeError, [])
    | some _ => main_loop return_all fetch rest

/-- Outcome of the host-resolution prologue of `analyze` (src 280-283):
`if host: self.host = host / elif not self.host: return False`.  A falsy
`host` argument (absent or empty) falls back to the instance attribute
`self.host`; if that attribute was never assigned, reading it raises an
uncaught `AttributeError`; if it is empty, `analyze` returns `False`. -/
inductive HostPhase where
  | ok (h : String)
  | retFalse
  | attrError
  deriving DecidableEq

/-- The fallback read of `self.host` (`hostAttr`: `none` = attribute never
assigned, `some ""` = assigned an empty string). -/
def host_phase_attr : Option String → HostPhase
  | none => .attrError
  | some s => if s = "" then .retFalse else .ok s

/-- Host resolution of src 280-283 over the `host` argument and the
instance attribute. -/
def host_phase (hostAttr hostArg : Option String) : HostPhase :=
  match hostArg with
  | some h => if h = "" then host_phase_attr hostAttr else .ok h
  | none => host_phase_attr hostAttr

/-- The non-resume prologue of `analyze` (src 291-301).
`_trigger_new_assessment` returns the classifier's value without parsing it
(src 181 lacks the `.json()` that `_poll_api` and `_get_all_results` have),
so `_status` is the raw `requests.Response` whenever the trigger succeeded;
`requests.Response` has no `get` method, hence `_status.get('status')`
(src 296) raises an `AttributeError` that nothing in `analyze` catches at
that point — the `READY`/`ERROR` tests of src 296-301 and the fall-through
into the polling loop are unreachable in non-resume mode. -/
def non_resume_prologue : TriggerOutcome → AnalyzeResult
  | .failed => .retFalse
  | .fatal m => .raised m
  | .response _ => .attrError

/-- Arguments of `analyze` (src 261-263) that influence the modelled
behaviour, with the source's default values.  `publish`, `from_cache`,
`max_age` and `ignore_mismatch` only shape the request URLs; `detail` only
triggers the advisory endpoint fan-out modelled by `detail_loop`. -/
structure AnalyzeArgs where
  host : Option String := none
  publish : String := "off"
  from_cache : String := "off"
  max_age : Nat := 5
  return_all : String := "done"
  ignore_mismatch : String := "on"
  resume : Bool := false
  detail : Bool := false
  deriving DecidableEq

/-- The scripted transport for one `analyze` call: outcomes for the `GET
info` probes, the trigger request, the successive `_poll_api` calls and the
(at most one) `_get_all_results` call. -/
structure Transport where
  infoOuts : List InfoOutcome
  trig : TriggerOutcome
  polls : List JsonCallOutcome
  fetchAll : JsonCallOutcome
  deriving DecidableEq

/-- Embedding of `SSLLabsAssessment.analyze` (src 261-363) over a scripted
transport, returning its result and the API requests it issued in order.
`hostAttr` models the instance attribute `self.host` and `apiUrlConfigured`
whether `self.API_URL` was set.  Control flow follows the source: capacity
gate first (src 277-278), host resolution second (src 280-283), then either
the trigger prologue (non-resume, src 291-301, which always ends `analyze`
— see `non_resume_prologue`) or the first polling loop (src 304-324), the
src-326 bridge and the second polling loop (src 337-356). -/
def analyze (hostAttr : Option String) (apiUrlConfigured : Bool)
    (a : AnalyzeArgs) (t : Transport) : AnalyzeResult × List ApiRequest :=
  let infoTrace := List.replicate (gate_info_requests apiUrlConfigured t.infoOuts) ApiRequest.info
  match check_api_info apiUrlConfigured t.infoOuts with
  | .raise m => (.raised m, infoTrace)
  | .ret false => (.retFalse, infoTrace)
  | .ret true =>
    match host_phase hostAttr a.host with
    | .attrError => (.attrError, infoTrace)
    | .retFalse => (.retFalse, infoTrace)
    | .ok _ =>
      if a.resume then
        match initial_loop a.resume a.return_all t.fetchAll t.polls with
        | (.done r, ptrace, _) => (r, infoTrace ++ ptrace)
        | (.toMain last, ptrace, rest) =>
          let m := after_initial a.return_all t.fetchAll last rest
          (m.1, infoTrace ++ ptrace ++ m.2)
      else
        (non_resume_prologue t.trig, infoTrace ++ [ApiRequest.trigger])

/-- Scripted outcome of one `requests.get(url)` + `.json()` round of
`_get_detailed_endpoint_information` (src 240): a parsed body carrying the
given `progress` value, a caught non-fatal exception, or a propagating
`AccessProblem`. -/
inductive EndpointOutcome where
  | doc (progress : Option Int)
  | caughtExc
  | fatal (msg : String)
  deriving DecidableEq

/-- How the endpoint-detail polling loop ends. -/
inductive DetailEnd where
  | returned
  | raised (msg : String)
  | scriptEnded
  deriving DecidableEq

/-- Embedding of the polling loop of `_get_detailed_endpoint_information`
(src 238-258) over scripted outcomes: the sleeps performed (in seconds, in
order) and how the loop ended.  `progress == 100` returns immediately;
negative progress sleeps 10s, other progress sleeps 5s (src 245-250).  A
body whose `progress` is absent makes the log line's comparison
`response.get('progress') > -1` (src 243) raise a `TypeError`, which the
generic handler (src 255-258) turns into a 5s sleep and a retry, as it does
for every caught exception; an `AccessProblem` propagates (src 253-254). -/
def detail_loop : List EndpointOutcome → List Nat × DetailEnd
  | [] => ([], .scriptEnded)
  | .fatal m :: _ => ([], .raised m)
  | .caughtExc :: rest =>
    let r := detail_loop rest
    (5 :: r.1, r.2)
  | .doc none :: rest =>
    let r := detail_loop rest
    (5 :: r.1, r.2)
  | .doc (some p) :: rest =>
    if p = 100 then ([], .returned)
    else if p < 0 then
      let r := detail_loop rest
      (10 :: r.1, r.2)
    else
      let r := detail_loop rest
      (5 :: r.1, r.2)

/-! Helper lemmas about the message-rendering strings. -/

theorem length_pos_of_ne_empty (s : String) (h : s ≠ "") : 0 < s.length := by
  cases s with
  | mk l =>
    cases l with
    | nil => simp at h
    | cons c cs => simp [String.length]

theorem ne_empty_of_length_pos (s : String) (h : 0 < s.length) : s ≠ "" := by
  intro he
  subst he
  simp at h

theorem render_error_length_pos (e : ErrEntry) : 0 < (render_error e).length := by
  unfold render_error
  rw [String.length_append, String.length_append]
  have h3 : 0 < (match e.message with
      | some m => if m = "" then "Unknown error" else m
      | none => "Unknown error").length := by
    cases e.message with
    | none => decide
    | some m =>
      show 0 < (if m = "" then "Unknown error" else m).length
      by_cases hm : m = ""
      · rw [if_pos hm]
        decide
      · rw [if_neg hm]
        exact length_pos_of_ne_empty m hm
  omega

theorem join_sep_cons_ne_empty (x : String) (l : List String) (hx : x ≠ "") :
    join_sep (x :: l) ≠ "" := by
  cases l with
  | nil => simpa [join_sep] using hx
  | cons y rest =>
    apply ne_empty_of_length_pos
    simp only [join_sep]
    rw [String.length_append, String.length_append]
    have := length_pos_of_ne_empty x hx
    omega

/-! Theorems settling the claims. -/

/-- Claim C1 (confirmed): for every poll returning a status document with
status READY handled in non-resume mode — the dispatch is the same in both
polling loops of `analyze` (src 313-319 and 347-348) — if `return_all` is
`on` or `done` the loop returns that document as-is, issuing only the poll
request and no fetch-all request; otherwise it issues exactly one additional
`_get_all_results` request and returns its parsed body. -/
theorem ready_poll_fetch_dispatch (return_all : String) (d fd : StatusDoc)
    (rest : List JsonCallOutcome) (hst : d.status = some "READY") :
    ((return_all = "on" ∨ return_all = "done") →
      ∀ fetch : JsonCallOutcome,
        initial_loop false return_all fetch (.doc d :: rest) =
          (.done (.value d), [.poll], rest) ∧
        main_loop return_all fetch (.doc d :: rest) = (.value d, [.poll])) ∧
    (¬(return_all = "on" ∨ return_all = "done") →
        initial_loop false return_all (.doc fd) (.doc d :: rest) =
          (.done (.value fd), [.poll, .fetchAll], rest) ∧
        main_loop return_all (.doc fd) (.doc d :: rest) =
          (.value fd, [.poll, .fetchAll])) := by
  constructor
  · intro h fetch
    constructor <;>
      simp [initial_loop, main_loop, initial_poll_step, main_poll_step, hst, h]
  · intro h
    constructor <;>
      simp [initial_loop, main_loop, initial_poll_step, main_poll_step, hst, h,
        resolve_fetch]

/-- Witness for `ready_poll_fetch_dispatch` at `return_all = "off"`: the
fetch-all branch fires, makes one fetch-all request and returns the fetched
body. -/
theorem ready_poll_fetch_dispatch_witness :
    initial_loop false "off" (.doc ⟨some "READY", none, some []⟩)
        [.doc ⟨some "READY", none, none⟩] =
      (.done (.value ⟨some "READY", none, some []⟩), [.poll, .fetchAll], []) ∧
    main_loop "off" (.doc ⟨some "READY", none, some []⟩)
        [.doc ⟨some "READY", none, none⟩] =
      (.value ⟨some "READY", none, some []⟩, [.poll, .fetchAll]) :=
  (ready_poll_fetch_dispatch "off" ⟨some "READY", none, none⟩
    ⟨some "READY", none, some []⟩ [] rfl).2 (by decide)

/-- Claim C2 counterexample: a 400 response whose body does not parse as
JSON makes `response.json()` (src 111) raise before any `_die_on_error`
branch runs, so the classifier does not raise an `AccessProblem`. -/
theorem nonjson_400_no_access_problem :
    handle_api_error ⟨400, none, "not json"⟩ = .jsonError ∧
    isAccessProblem (handle_api_error ⟨400, none, "not json"⟩) = false := by
  decide

/-- Claim C2 (amended): provided the response body parses as JSON, a 200
response is passed through unchanged; 400, 429, 500, 503 and 529 raise
`AccessProblem` errors whose messages name invocation error, rate too high,
internal error, not available and overloaded respectively; any other status
code raises an `AccessProblem` of the unknown kind carrying the original
status code in its message.  (A non-200 response whose body does not parse
makes the JSON parse error escape instead.) -/
theorem status_code_classification (r : HttpResponse) (errs : List ErrEntry)
    (hj : r.json_errors = some errs) :
    (r.status_code = 200 → handle_api_error r = .ok r) ∧
    (r.status_code = 400 → handle_api_error r =
      .accessProblem ("[API] invocation error: " ++ api_error_text errs r.text)) ∧
    (r.status_code = 429 → handle_api_error r =
      .accessProblem ("[API] client request rate too high or too many new" ++
        "assessments too fast: " ++ api_error_text errs r.text)) ∧
    (r.status_code = 500 → handle_api_error r =
      .accessProblem ("[API] internal error: " ++ api_error_text errs r.text)) ∧
    (r.status_code = 503 → handle_api_error r =
      .accessProblem ("[API] the service is not available: " ++
        api_error_text errs r.text)) ∧
    (r.status_code = 529 → handle_api_error r =
      .accessProblem ("[API] the service is overloaded: " ++
        api_error_text errs r.text)) ∧
    (r.status_code ≠ 200 → r.status_code ≠ 400 → r.status_code ≠ 429 →
     r.status_code ≠ 500 → r.status_code ≠ 503 → r.status_code ≠ 529 →
      handle_api_error r =
        .accessProblem ("[API] unknown status code: " ++ toString r.status_code ++
          ", " ++ api_error_text errs r.text)) := by
  refine ⟨?_, ?_, ?_, ?_, ?_, ?_, ?_⟩ <;> intros <;>
    simp [handle_api_error, hj, *]

/-- Witness for `status_code_classification` at a concrete 400 response. -/
theorem status_code_classification_witness :
    handle_api_error ⟨400, some [], "body"⟩ =
      .accessProblem ("[API] invocation error: " ++ api_error_text [] "body") :=
  (status_code_classification ⟨400, some [], "body"⟩ [] rfl).2.1 rfl

/-- Claim C3 counterexample: a resume-mode run whose first poll returns
IN_PROGRESS does not return immediately: two further poll requests follow
(three polls in total) and the run ends by returning the READY document
observed by the main polling loop. -/
theorem resume_in_progress_keeps_polling_counterexample :
    analyze (some "example.com") true
        ⟨none, "off", "off", 5, "done", "on", true, false⟩
        ⟨[.doc ⟨some 25, some 25, some 0, some "2.1.10", some "2009q", some ["m"]⟩],
         .failed,
         [.doc ⟨some "IN_PROGRESS", none, some []⟩,
          .doc ⟨some "IN_PROGRESS", none, some []⟩,
          .doc ⟨some "READY", none, some []⟩],
         .failed⟩ =
      (.value ⟨some "READY", none, some []⟩, [.info, .poll, .poll, .poll]) := by
  decide

/-- Claim C3 (amended): when `resume = true` and the first poll returns a
status document with status IN_PROGRESS, `analyze` reports that the
assessment is still in progress and leaves the initial check loop after that
single poll — but, provided the document carries an endpoints array, it then
enters the main polling-until-READY loop over the remaining poll outcomes
instead of returning immediately. -/
theorem resume_in_progress_enters_main_loop (ra : String)
    (f : JsonCallOutcome) (d : StatusDoc) (eps : List EndpointSummary)
    (rest : List JsonCallOutcome)
    (hst : d.status = some "IN_PROGRESS") (hep : d.endpoints = some eps) :
    initial_loop true ra f (.doc d :: rest) = (.toMain (some d), [.poll], rest) ∧
    after_initial ra f (some d) rest = main_loop ra f rest := by
  constructor
  · simp [initial_loop, initial_poll_step, hst]
  · simp [after_initial, hep]

/-- Witness for `resume_in_progress_enters_main_loop` at a concrete
IN_PROGRESS document. -/
theorem resume_in_progress_enters_main_loop_witness :
    initial_loop true "done" .failed [.doc ⟨some "IN_PROGRESS", none, some []⟩] =
      (.toMain (some ⟨some "IN_PROGRESS", none, some []⟩), [.poll], []) ∧
    after_initial "done" .failed (some ⟨some "IN_PROGRESS", none, some []⟩) [] =
      main_loop "done" .failed [] :=
  resume_in_progress_enters_main_loop "done" .failed
    ⟨some "IN_PROGRESS", none, some []⟩ [] [] rfl rfl

/-- Claim C4 (confirmed): a capacity response whose `maxAssessments` is at
most 0 makes `_check_api_info` return `False` without raising, and `analyze`
then returns `False` without issuing any trigger request. -/
theorem rate_limited_gate_blocks_trigger (cfg : Bool) (d : InfoDoc) (m : Int)
    (hostAttr : Option String) (a : AnalyzeArgs) (t : Transport)
    (hm : d.maxAssessments = some m) (hle : m ≤ 0)
    (houts : t.infoOuts = [.doc d]) :
    check_api_info cfg t.infoOuts = .ret false ∧
    (analyze hostAttr cfg a t).1 = .retFalse ∧
    ApiRequest.trigger ∉ (analyze hostAttr cfg a t).2 := by
  have hg : check_api_info cfg t.infoOuts = .ret false := by
    cases cfg <;>
      simp [check_api_info, houts, probe_urls, probe_configured, hm, hle]
  refine ⟨hg, ?_, ?_⟩ <;> simp [analyze, hg, List.mem_replicate]

/-- Witness for `rate_limited_gate_blocks_trigger` at `maxAssessments = 0`. -/
theorem rate_limited_gate_blocks_trigger_witness :
    check_api_info true
        [.doc ⟨some 0, some 25, some 3, some "v", some "c", some ["m"]⟩] =
      .ret false ∧
    (analyze (some "example.com") true
        ⟨none, "off", "off", 5, "done", "on", false, false⟩
        ⟨[.doc ⟨some 0, some 25, some 3, some "v", some "c", some ["m"]⟩],
         .failed, [], .failed⟩).1 = .retFalse ∧
    ApiRequest.trigger ∉ (analyze (some "example.com") true
        ⟨none, "off", "off", 5, "done", "on", false, false⟩
        ⟨[.doc ⟨some 0, some 25, some 3, some "v", some "c", some ["m"]⟩],
         .failed, [], .failed⟩).2 :=
  rate_limited_gate_blocks_trigger true
    ⟨some 0, some 25, some 3, some "v", some "c", some ["m"]⟩ 0
    (some "example.com") ⟨none, "off", "off", 5, "done", "on", false, false⟩
    ⟨[.doc ⟨some 0, some 25, some 3, some "v", some "c", some ["m"]⟩],
     .failed, [], .failed⟩ rfl (by decide) rfl

/-- Claim C5 (code_bug): evaluation of `analyze` at the failing input — a
non-resume call whose trigger GET returns HTTP 200 with the JSON body
`{"status": "READY", "endpoints": []}`.  Because src 181 returns the
classifier's value without `.json()` (unlike `_poll_api` and
`_get_all_results`), `analyze` receives the raw `requests.Response`, and
`_status.get('status')` (src 296) raises an uncaught AttributeError: the
trigger call never yields a readable first status snapshot, contradicting
the claim and the intent visible in src 296-301. -/
theorem trigger_raw_response_attribute_error :
    analyze (some "example.com") true
        ⟨none, "off", "off", 5, "done", "on", false, false⟩
        ⟨[.doc ⟨some 25, some 25, some 0, some "2.1.10", some "2009q", some ["m"]⟩],
         .response ⟨some "READY", none, some []⟩, [], .failed⟩ =
      (.attrError, [.info, .trigger]) := by
  decide

/-- Claim C6 counterexample: with the instance attribute `self.host` set to
the empty string and no host argument, `analyze` still issues the
capacity-gate info request before noticing the missing host, and then
returns the plain value `False` — no error is raised and a network call
precedes the failure. -/
theorem no_host_counterexample :
    analyze (some "") true ⟨none, "off", "off", 5, "done", "on", false, false⟩
        ⟨[.doc ⟨some 25, some 25, some 0, some "v", some "c", some ["m"]⟩],
         .failed, [], .failed⟩ =
      (.retFalse, [.info]) := by
  decide

/-- Claim C6 (amended): when no non-empty host is available, `analyze`
produces no result without issuing any trigger or poll request — but only
after the capacity gate's info request(s) have been made, and the failure is
the plain return value `False` (or an uncaught AttributeError when the host
attribute was never assigned at all), not a typed configuration error raised
before network activity. -/
theorem no_host_after_gate (cfg : Bool) (a : AnalyzeArgs) (t : Transport)
    (attr : Option String)
    (hargs : a.host = none ∨ a.host = some "")
    (hattr : attr = none ∨ attr = some "")
    (hgate : check_api_info cfg t.infoOuts = .ret true) :
    (analyze attr cfg a t).1 =
      (if attr = none then AnalyzeResult.attrError else .retFalse) ∧
    (analyze attr cfg a t).2 =
      List.replicate (gate_info_requests cfg t.infoOuts) ApiRequest.info := by
  have hhp : host_phase attr a.host =
      (if attr = none then HostPhase.attrError else .retFalse) := by
    rcases hargs with h | h <;> rcases hattr with h2 | h2 <;>
      simp [host_phase, host_phase_attr, h, h2]
  rcases hattr with h2 | h2 <;> subst h2 <;> simp at hhp <;>
    simp [analyze, hgate, hhp]

/-- Witness for `no_host_after_gate` with the host attribute set to the
empty string. -/
theorem no_host_after_gate_witness :
    (analyze (some "") true ⟨none, "off", "off", 5, "done", "on", false, false⟩
        ⟨[.doc ⟨some 25, some 25, some 0, some "v", some "c", some ["m"]⟩],
         .failed, [], .failed⟩).1 =
      (if (some "" : Option String) = none then AnalyzeResult.attrError
       else .retFalse) ∧
    (analyze (some "") true ⟨none, "off", "off", 5, "done", "on", false, false⟩
        ⟨[.doc ⟨some 25, some 25, some 0, some "v", some "c", some ["m"]⟩],
         .failed, [], .failed⟩).2 =
      List.replicate (gate_info_requests true
        [.doc ⟨some 25, some 25, some 0, some "v", some "c", some ["m"]⟩])
        ApiRequest.info :=
  no_host_after_gate true ⟨none, "off", "off", 5, "done", "on", false, false⟩
    ⟨[.doc ⟨some 25, some 25, some 0, some "v", some "c", some ["m"]⟩],
     .failed, [], .failed⟩ (some "") (Or.inl rfl) (Or.inr rfl) (by decide)

/-- Claim C7 (confirmed): the endpoint detail poller, given successive
responses reporting the progress values [-1, -1, 40, 75, 100], sleeps 10s,
10s, 5s, 5s between polls and returns immediately after observing progress
100. -/
theorem detail_poller_scripted_sleeps :
    detail_loop [.doc (some (-1)), .doc (some (-1)), .doc (some 40),
        .doc (some 75), .doc (some 100)] =
      ([10, 10, 5, 5], .returned) := by
  decide

/-- Claim C8 (code_bug): evaluation of `analyze` at the failing input — a
resume-mode run whose first `_poll_api` call hits a transport exception
(caught inside `_poll_api`, which returns `False`).  `analyze` logs "Poll
failed" and breaks (src 306-308), its intended graceful no-result path, but
src 326 then evaluates `_status.get('endpoints')` on `False` outside any
`try`, raising an AttributeError that escapes `analyze` instead of a
no-result return. -/
theorem failed_first_poll_attribute_error :
    analyze (some "example.com") true
        ⟨none, "off", "off", 5, "done", "on", true, false⟩
        ⟨[.doc ⟨some 25, some 25, some 0, some "v", some "c", some ["m"]⟩],
         .failed, [.failed], .failed⟩ =
      (.attrError, [.info, .poll]) := by
  decide

/-- Claim C9 counterexample: a 503 response whose body is not JSON makes
`response.json()` (src 111) raise, so the classifier never falls back to the
raw body text — no `AccessProblem` message is built at all. -/
theorem nonjson_body_no_text_fallback :
    handle_api_error ⟨503, none, "<html>service down</html>"⟩ = .jsonError ∧
    isAccessProblem (handle_api_error ⟨503, none, "<html>service down</html>"⟩) =
      false := by
  decide

/-- Claim C9 (amended): for every non-200 response whose body parses as
JSON, the raised failure's message is built from the structured per-field
error descriptions (each rendered as `field: message` and joined by `; `)
when entries are present, and falls back to the raw body text when none are;
when the body does not parse as JSON the classifier instead lets the JSON
parse error escape. -/
theorem api_error_message_sources (r : HttpResponse) (errs : List ErrEntry)
    (hj : r.json_errors = some errs) (hc : r.status_code ≠ 200) :
    (∃ kind, handle_api_error r =
      .accessProblem (kind ++ api_error_text errs r.text)) ∧
    (errs = [] → api_error_text errs r.text = r.text) ∧
    (errs ≠ [] →
      api_error_text errs r.text = join_sep (errs.map render_error) ∧
      join_sep (errs.map render_error) ≠ "") ∧
    (∀ text2 : String, handle_api_error ⟨r.status_code, none, text2⟩ =
      .jsonError) := by
  refine ⟨?_, ?_, ?_, ?_⟩
  · simp only [handle_api_error, hj, if_neg hc]
    split_ifs <;> exact ⟨_, rfl⟩
  · intro h
    simp [api_error_text, h, join_sep]
  · intro h
    cases errs with
    | nil => exact absurd rfl h
    | cons e rest =>
      have hne : join_sep (render_error e :: rest.map render_error) ≠ "" :=
        join_sep_cons_ne_empty (render_error e) (rest.map render_error)
          (ne_empty_of_length_pos _ (render_error_length_pos e))
      constructor
      · simp [api_error_text, hne]
      · simpa using hne
  · intro text2
    simp [handle_api_error, hc]

/-- Witness for `api_error_message_sources` at a concrete 500 response
carrying one structured error entry. -/
theorem api_error_message_sources_witness :
    (∃ kind, handle_api_error ⟨500, some [⟨some "host", some "bad"⟩], "raw"⟩ =
      .accessProblem (kind ++ api_error_text [⟨some "host", some "bad"⟩] "raw")) ∧
    (([⟨some "host", some "bad"⟩] : List ErrEntry) = [] →
      api_error_text [⟨some "host", some "bad"⟩] "raw" = "raw") ∧
    (([⟨some "host", some "bad"⟩] : List ErrEntry) ≠ [] →
      api_error_text [⟨some "host", some "bad"⟩] "raw" =
        join_sep ([⟨some "host", some "bad"⟩].map render_error) ∧
      join_sep (([⟨some "host", some "bad"⟩] : List ErrEntry).map render_error) ≠ "") ∧
    (∀ text2 : String, handle_api_error ⟨500, none, text2⟩ = .jsonError) :=
  api_error_message_sources ⟨500, some [⟨some "host", some "bad"⟩], "raw"⟩
    [⟨some "host", some "bad"⟩] rfl (by decide)

/-- Claim C10 counterexample: a resume-mode run whose first poll is
IN_PROGRESS and second poll is READY retrieves the READY status document, so
a READY assessment can be retrieved in resume mode as well. -/
theorem resume_retrieves_ready_counterexample :
    (analyze (some "a.org") true ⟨none, "off", "off", 5, "done", "on", true, false⟩
        ⟨[.doc ⟨some 25, some 25, some 0, some "v", some "c", some ["m"]⟩],
         .failed,
         [.doc ⟨some "IN_PROGRESS", none, some []⟩,
          .doc ⟨some "READY", none, some []⟩],
         .failed⟩).1 = .value ⟨some "READY", none, some []⟩ := by
  decide

/-- Claim C10 (amended): for every `analyze` call with `resume = true` whose
first poll returns a status document with status READY, `analyze` returns no
result (Python `None`) — never that status document, and without issuing any
fetch-all request. -/
theorem resume_first_ready_returns_none (attr : Option String) (cfg : Bool)
    (a : AnalyzeArgs) (t : Transport) (d : StatusDoc)
    (rest : List JsonCallOutcome) (h : String)
    (hres : a.resume = true)
    (hgate : check_api_info cfg t.infoOuts = .ret true)
    (hhost : host_phase attr a.host = .ok h)
    (hpolls : t.polls = .doc d :: rest) (hst : d.status = some "READY") :
    (analyze attr cfg a t).1 = .retNone ∧
    ApiRequest.fetchAll ∉ (analyze attr cfg a t).2 := by
  have hloop : initial_loop true a.return_all t.fetchAll t.polls =
      (.done .retNone, [.poll], rest) := by
    simp [hpolls, initial_loop, initial_poll_step, hst]
  constructor <;>
    simp [analyze, hgate, hhost, hres, hloop, List.mem_append, List.mem_replicate]

/-- Witness for `resume_first_ready_returns_none` at a concrete resume run
whose single poll returns READY. -/
theorem resume_first_ready_returns_none_witness :
    (analyze (some "w.net") true ⟨none, "off", "off", 5, "done", "on", true, false⟩
        ⟨[.doc ⟨some 25, some 25, some 0, some "v", some "c", some ["m"]⟩],
         .failed, [.doc ⟨some "READY", none, some []⟩], .failed⟩).1 = .retNone ∧
    ApiRequest.fetchAll ∉ (analyze (some "w.net") true
        ⟨none, "off", "off", 5, "done", "on", true, false⟩
        ⟨[.doc ⟨some 25, some 25, some 0, some "v", some "c", some ["m"]⟩],
         .failed, [.doc ⟨some "READY", none, some []⟩], .failed⟩).2 :=
  resume_first_ready_returns_none (some "w.net") true
    ⟨none, "off", "off", 5, "done", "on", true, false⟩
    ⟨[.doc ⟨some 25, some 25, some 0, some "v", some "c", some ["m"]⟩],
     .failed, [.doc ⟨some "READY", none, some []⟩], .failed⟩
    ⟨some "READY", none, some []⟩ [] "w.net" rfl (by decide) rfl rfl rfl

end SSLLabs
